import Mathlib

/-!
Shallow embedding of slm::Optional (slm_optional.hpp) and its assertion
collaborator (slm_assert.hpp).

Modelling conventions:
- `Optional α` mirrors the value-case `Optional<T>`: the anonymous union member
  `T m_payload` is modelled as `m_payload : Option α` (`some v` means the slot
  holds a live `T` whose value is `v`; `none` means no live object), and the
  flag `bool m_engaged { false }` is `m_engaged : Bool`.
- Every mutating member function additionally reports the list of payload
  lifetime events it performs, in order: `std::construct_at(&m_payload, ...)`
  is `PEvent.construct`, `m_payload.~T()` is `PEvent.destroy`, `m_payload = ...`
  (T's assignment operator) is `PEvent.assign`, and `swap(m_payload, other.m_payload)`
  (T's swap) is `PEvent.swapT`.
- Reading `m_payload` of an operand whose slot holds no live object is
  undefined behaviour in the source; those branches are unreachable whenever
  the engagement invariant holds, and the model returns an arbitrary fixed
  value there (`AccessResult.undef` where the result type permits it).
- C++ move semantics degenerate to copying in a purely functional model; the
  moved-from payload keeps its value (the source never disengages a moved-from
  Optional in the move constructor / move assignment).
-/

namespace Slm

/-- Payload lifetime events performed on the union slot `m_payload`. -/
inductive PEvent where
  | construct
  | destroy
  | assign
  | swapT
  deriving DecidableEq, Repr

/-- The value-case `Optional<T>` (slm_optional.hpp): a union slot for the
payload plus the engagement flag `bool m_engaged { false }`. -/
structure Optional (α : Type) where
  m_payload : Option α
  m_engaged : Bool
  deriving DecidableEq, Repr

variable {α β : Type}

/-- The engagement invariant: the storage slot holds a live `T` instance if and
only if `m_engaged` is true. -/
def Optional.inv (s : Optional α) : Bool :=
  s.m_payload.isSome == s.m_engaged

/-- Default constructor `Optional() = default`: slot uninitialized (no live
object), `m_engaged` initialized to `false`. -/
def Optional.default_construct : Optional α :=
  { m_payload := none, m_engaged := false }

/-- Constructor `Optional(NoneType)`: identical to default construction. -/
def Optional.none_construct : Optional α :=
  { m_payload := none, m_engaged := false }

/-- Copy constructor: if `other.m_engaged`, `std::construct_at(&m_payload,
other.m_payload)` then `m_engaged = true`; otherwise both members keep their
default-constructed state. -/
def Optional.copy_construct (other : Optional α) : Optional α :=
  if other.m_engaged then { m_payload := other.m_payload, m_engaged := true }
  else { m_payload := none, m_engaged := false }

/-- Move constructor: if `other.m_engaged`, `std::construct_at(&m_payload,
std::move(other.m_payload))` then `m_engaged = true`; the moved-from Optional
stays engaged. In the value model the constructed payload equals the source
payload. -/
def Optional.move_construct (other : Optional α) : Optional α :=
  if other.m_engaged then { m_payload := other.m_payload, m_engaged := true }
  else { m_payload := none, m_engaged := false }

/-- In-place constructor `Optional(std::in_place_t, Args&&...)`: the payload is
built from the arguments (modelled by the resulting value `v`), engaged. -/
def Optional.in_place_construct (v : α) : Optional α :=
  { m_payload := some v, m_engaged := true }

/-- Constructors `Optional(Some<const U&>)` / `Optional(Some<U&&>)`: payload
copy/move-constructed from the proxied value, engaged. -/
def Optional.some_construct (v : α) : Optional α :=
  { m_payload := some v, m_engaged := true }

/-- Member `operator=(NoneType)`: destroy the payload if engaged, then set
`m_engaged = false`. -/
def Optional.assign_none (s : Optional α) : Optional α × List PEvent :=
  if s.m_engaged then
    ({ m_payload := none, m_engaged := false }, [PEvent.destroy])
  else
    ({ s with m_engaged := false }, [])

/-- Copy assignment `operator=(const Optional&)`: four-way case split on
`(m_engaged, other.m_engaged)` exactly as in the source. -/
def Optional.copy_assign (s other : Optional α) : Optional α × List PEvent :=
  if s.m_engaged && other.m_engaged then
    ({ s with m_payload := other.m_payload }, [PEvent.assign])
  else if s.m_engaged then
    ({ m_payload := none, m_engaged := false }, [PEvent.destroy])
  else if other.m_engaged then
    ({ m_payload := other.m_payload, m_engaged := true }, [PEvent.construct])
  else
    (s, [])

/-- Move assignment `operator=(Optional&&)`: same four-way case split; the
moved-from payload keeps its value in this model. -/
def Optional.move_assign (s other : Optional α) : Optional α × List PEvent :=
  if s.m_engaged && other.m_engaged then
    ({ s with m_payload := other.m_payload }, [PEvent.assign])
  else if s.m_engaged then
    ({ m_payload := none, m_engaged := false }, [PEvent.destroy])
  else if other.m_engaged then
    ({ m_payload := other.m_payload, m_engaged := true }, [PEvent.construct])
  else
    (s, [])

/-- Assignment from a value proxy `operator=(Some<const U&>)` /
`operator=(Some<U&&>)`: assign through if engaged, otherwise construct in place
and flip the flag. -/
def Optional.assign_some (s : Optional α) (v : α) : Optional α × List PEvent :=
  if s.m_engaged then
    ({ s with m_payload := some v }, [PEvent.assign])
  else
    ({ m_payload := some v, m_engaged := true }, [PEvent.construct])

/-- Member `reset()`: destroy the payload and clear the flag if engaged,
otherwise do nothing. -/
def Optional.reset (s : Optional α) : Optional α × List PEvent :=
  if s.m_engaged then
    ({ m_payload := none, m_engaged := false }, [PEvent.destroy])
  else
    (s, [])

/-- Member `emplace(Args&&...)`: `reset()` then `std::construct_at(&m_payload,
args...)` then `m_engaged = true`. -/
def Optional.emplace (s : Optional α) (v : α) : Optional α × List PEvent :=
  let r := Optional.reset s
  ({ m_payload := some v, m_engaged := true }, r.2 ++ [PEvent.construct])

/-- Member `swap(Optional&)`: both engaged uses T's `swap` on the payloads;
mixed engagement move-constructs the payload into the disengaged side and then
destroys the source payload; neither engaged is a no-op. Returns the pair
(self, other) after the call together with the payload events in order. -/
def Optional.swap (s other : Optional α) :
    (Optional α × Optional α) × List PEvent :=
  if s.m_engaged then
    if other.m_engaged then
      (({ s with m_payload := other.m_payload },
        { other with m_payload := s.m_payload }), [PEvent.swapT])
    else
      (({ m_payload := none, m_engaged := false },
        { m_payload := s.m_payload, m_engaged := true }),
       [PEvent.construct, PEvent.destroy])
  else if other.m_engaged then
    (({ m_payload := other.m_payload, m_engaged := true },
      { m_payload := none, m_engaged := false }),
     [PEvent.construct, PEvent.destroy])
  else
    ((s, other), [])

/-- Outcome of `assertions::check` (slm_assert.hpp): the process continues when
the condition holds, otherwise the diagnostic is printed and `std::abort()` is
called. The `REQUIRE` macro always performs this check, in every build mode. -/
inductive CheckOutcome where
  | passed
  | abort_process
  deriving DecidableEq, Repr

/-- The always-active `REQUIRE(condition, ...)` macro: delegates to
`assertions::check`, which never returns when the condition is false. -/
def REQUIRE (condition : Bool) : CheckOutcome :=
  if condition then CheckOutcome.passed else CheckOutcome.abort_process

/-- Result of an access to the payload: the returned reference (its value),
process termination through the failure collaborator, or undefined behaviour
(reading a slot with no live object — unreachable under the invariant). -/
inductive AccessResult (α : Type) where
  | ok (v : α)
  | aborted
  | undef
  deriving DecidableEq, Repr

/-- Member `value()` (all four const / value-category flavors share this body):
`REQUIRE(m_engaged, ...)` then return (a reference to) `m_payload`. -/
def Optional.value (s : Optional α) : AccessResult α :=
  match REQUIRE s.m_engaged with
  | CheckOutcome.abort_process => AccessResult.aborted
  | CheckOutcome.passed =>
      match s.m_payload with
      | some v => AccessResult.ok v
      | none => AccessResult.undef

/-- Helper `optional_detail::maybe_invoke(f, arg, cond)`: invoke `f` on the
payload when `cond` holds, otherwise return a value-initialized (hence
disengaged) instance of f's declared Optional return type. The payload slot is
only read in the `cond` branch. -/
def maybe_invoke (f : α → Optional β) (arg : Option α) (cond : Bool) :
    Optional β :=
  if cond then
    match arg with
    | some v => f v
    | none => Optional.default_construct
  else Optional.default_construct

/-- Member `and_then(f)` (all four flavors share this body): delegates to
`maybe_invoke(f, m_payload, m_engaged)`. -/
def Optional.and_then (s : Optional α) (f : α → Optional β) : Optional β :=
  maybe_invoke f s.m_payload s.m_engaged

/-- Free `operator==(const Optional<T>&, const Optional<U>&)`; the payload
equality `*a == *b` is the parameter `eq`. -/
def opt_eq_opt (eq : α → β → Bool) (a : Optional α) (b : Optional β) : Bool :=
  if a.m_engaged then
    if b.m_engaged then
      match a.m_payload, b.m_payload with
      | some x, some y => eq x y
      | _, _ => false
    else false
  else if b.m_engaged then false
  else true

/-- Free `operator<=>(const Optional<T>&, const Optional<U>&)`; the payload
three-way comparison `*a <=> *b` is the parameter `cmp`; `greater`, `less`,
`equivalent` are `Ordering.gt`, `Ordering.lt`, `Ordering.eq`. -/
def opt_cmp_opt (cmp : α → β → Ordering) (a : Optional α) (b : Optional β) :
    Ordering :=
  if a.m_engaged then
    if b.m_engaged then
      match a.m_payload, b.m_payload with
      | some x, some y => cmp x y
      | _, _ => Ordering.eq
    else Ordering.gt
  else if b.m_engaged then Ordering.lt
  else Ordering.eq

/-- Free `operator==(const Optional<T>&, const NoneType&)`: returns `!a`. -/
def opt_eq_none (a : Optional α) : Bool :=
  !a.m_engaged

/-- Free `operator<=>(const Optional<T>&, const NoneType&)`: `greater` when
engaged, `equivalent` otherwise. -/
def opt_cmp_none (a : Optional α) : Ordering :=
  if a.m_engaged then Ordering.gt else Ordering.eq

/-- Free `operator==(const Optional<T>&, const U&)` for non-optional `U`:
`a && *a == b`. -/
def opt_eq_val (eq : α → β → Bool) (a : Optional α) (b : β) : Bool :=
  if a.m_engaged then
    match a.m_payload with
    | some x => eq x b
    | none => false
  else false

/-- Free `operator<=>(const Optional<T>&, const U&)` for non-optional `U`:
`*a <=> b` when engaged, `less` otherwise. -/
def opt_cmp_val (cmp : α → β → Ordering) (a : Optional α) (b : β) : Ordering :=
  if a.m_engaged then
    match a.m_payload with
    | some x => cmp x b
    | none => Ordering.eq
  else Ordering.lt

/-!
Reference specialization `Optional<T&>`: stores `T* m_ptr { nullptr }`.
Referents live in an explicit heap, modelled as a total map from addresses
to values; a `SomeRef<T>` proxy wrapping a named object is just that object's
address.
-/

/-- The heap of referents for the reference specialization: address to value. -/
def Heap (α : Type) : Type := Nat → α

/-- The reference-case `Optional<T&>`: a single address-or-null member. -/
structure OptionalRef where
  m_ptr : Option Nat
  deriving DecidableEq, Repr

/-- Member `Optional<T&>::operator=(SomeRef<T>)`: `m_ptr = &ref.unwrap()` —
store the address of the proxied object; the heap of referents is not
touched. -/
def OptionalRef.assign_ref (st : OptionalRef × Heap α) (addr : Nat) :
    OptionalRef × Heap α :=
  ({ m_ptr := some addr }, st.2)

/-- Member `Optional<T&>::operator*()` on an engaged reference optional
followed by an assignment `*r = v` to the referent: writes `v` at the stored
address; disengaged dereference is a checked failure / UB and leaves the heap
unchanged here. -/
def OptionalRef.store_through (st : OptionalRef × Heap α) (v : α) :
    OptionalRef × Heap α :=
  match st.1.m_ptr with
  | some a => (st.1, fun i => if i = a then v else st.2 i)
  | none => st

/-- Member `Optional<T&>::operator*()` as a read of the referent. -/
def OptionalRef.deref (st : OptionalRef × Heap α) : AccessResult α :=
  match st.1.m_ptr with
  | some a => AccessResult.ok (st.2 a)
  | none => AccessResult.aborted

/-!
Trace model for the engagement invariant (C1): a public construction followed
by a sequence of state-changing public operations on one Optional object.
Copy/move/swap sources are arbitrary other Optional states.
-/

/-- A public construction of an `Optional<T>`. -/
inductive Ctor (α : Type) where
  | default_c
  | from_none
  | in_place (v : α)
  | from_some (v : α)
  | copy_of (src : Optional α)
  | move_of (src : Optional α)

/-- The state produced by each constructor. -/
def Ctor.init : Ctor α → Optional α
  | Ctor.default_c => Optional.default_construct
  | Ctor.from_none => Optional.none_construct
  | Ctor.in_place v => Optional.in_place_construct v
  | Ctor.from_some v => Optional.some_construct v
  | Ctor.copy_of src => Optional.copy_construct src
  | Ctor.move_of src => Optional.move_construct src

/-- The source operand of a constructor satisfies the engagement invariant
(vacuously true for source-free constructors). -/
def Ctor.src_inv : Ctor α → Bool
  | Ctor.copy_of src => Optional.inv src
  | Ctor.move_of src => Optional.inv src
  | _ => true

/-- A state-changing public operation on one Optional object. -/
inductive Op (α : Type) where
  | assign_none_op
  | copy_assign_from (src : Optional α)
  | move_assign_from (src : Optional α)
  | assign_some_op (v : α)
  | reset_op
  | emplace_op (v : α)
  | swap_with (other : Optional α)

/-- Effect of one operation on the tracked object (for `swap_with`, the
tracked object is `self`, the first component of the pair after the call). -/
def Op.apply (s : Optional α) : Op α → Optional α
  | Op.assign_none_op => (Optional.assign_none s).1
  | Op.copy_assign_from src => (Optional.copy_assign s src).1
  | Op.move_assign_from src => (Optional.move_assign s src).1
  | Op.assign_some_op v => (Optional.assign_some s v).1
  | Op.reset_op => (Optional.reset s).1
  | Op.emplace_op v => (Optional.emplace s v).1
  | Op.swap_with other => (Optional.swap s other).1.1

/-- The source operand of an operation satisfies the engagement invariant
(vacuously true for source-free operations). -/
def Op.src_inv : Op α → Bool
  | Op.copy_assign_from src => Optional.inv src
  | Op.move_assign_from src => Optional.inv src
  | Op.swap_with other => Optional.inv other
  | _ => true

/-- Whether an operation leaves the tracked object engaged: emplace and
value-proxy assignment always engage; reset and empty-marker assignment always
disengage; copy/move assignment engage exactly when the source is engaged;
swap engages exactly when the other object was engaged (so swapping with a
disengaged other moves the payload away and disengages). -/
def Op.engages : Op α → Bool
  | Op.assign_none_op => false
  | Op.copy_assign_from src => src.m_engaged
  | Op.move_assign_from src => src.m_engaged
  | Op.assign_some_op _ => true
  | Op.reset_op => false
  | Op.emplace_op _ => true
  | Op.swap_with other => other.m_engaged

/-- Run a sequence of operations from a starting state. -/
def run_ops (s : Optional α) : List (Op α) → Optional α
  | [] => s
  | op :: rest => run_ops (Op.apply s op) rest

/-- The engagement predicted from the trace alone: the initial engagement if
no operation ran, otherwise the engagement outcome of the last operation. -/
def trace_engaged (e0 : Bool) : List (Op α) → Bool
  | [] => e0
  | op :: rest => trace_engaged (Op.engages op) rest

/-!
Helper lemmas: every constructor establishes the engagement invariant, every
operation preserves it, and the engagement after an operation is determined by
the operation alone.
-/

theorem inv_init (c : Ctor α) (hc : Ctor.src_inv c = true) :
    Optional.inv (Ctor.init c) = true := by
  cases c with
  | default_c => rfl
  | from_none => rfl
  | in_place v => rfl
  | from_some v => rfl
  | copy_of src =>
      cases src with
      | mk p e =>
          cases e <;>
            simp_all [Optional.inv, Ctor.src_inv, Ctor.init, Optional.copy_construct]
  | move_of src =>
      cases src with
      | mk p e =>
          cases e <;>
            simp_all [Optional.inv, Ctor.src_inv, Ctor.init, Optional.move_construct]

theorem inv_apply (s : Optional α) (op : Op α) (hs : Optional.inv s = true)
    (hop : Op.src_inv op = true) : Optional.inv (Op.apply s op) = true := by
  cases s with
  | mk p e =>
    cases op with
    | assign_none_op =>
        cases e <;> simp_all [Optional.inv, Op.apply, Optional.assign_none]
    | copy_assign_from src =>
        cases src with
        | mk q d =>
            cases e <;> cases d <;>
              simp_all [Optional.inv, Op.apply, Op.src_inv, Optional.copy_assign]
    | move_assign_from src =>
        cases src with
        | mk q d =>
            cases e <;> cases d <;>
              simp_all [Optional.inv, Op.apply, Op.src_inv, Optional.move_assign]
    | assign_some_op v =>
        cases e <;> simp_all [Optional.inv, Op.apply, Optional.assign_some]
    | reset_op =>
        cases e <;> simp_all [Optional.inv, Op.apply, Optional.reset]
    | emplace_op v =>
        cases e <;>
          simp_all [Optional.inv, Op.apply, Optional.emplace, Optional.reset]
    | swap_with other =>
        cases other with
        | mk q d =>
            cases e <;> cases d <;>
              simp_all [Optional.inv, Op.apply, Op.src_inv, Optional.swap]

theorem engaged_apply (s : Optional α) (op : Op α) :
    (Op.apply s op).m_engaged = Op.engages op := by
  cases s with
  | mk p e =>
    cases op with
    | assign_none_op =>
        cases e <;> simp [Op.apply, Op.engages, Optional.assign_none]
    | copy_assign_from src =>
        cases src with
        | mk q d =>
            cases e <;> cases d <;>
              simp [Op.apply, Op.engages, Optional.copy_assign]
    | move_assign_from src =>
        cases src with
        | mk q d =>
            cases e <;> cases d <;>
              simp [Op.apply, Op.engages, Optional.move_assign]
    | assign_some_op v =>
        cases e <;> simp [Op.apply, Op.engages, Optional.assign_some]
    | reset_op =>
        cases e <;> simp [Op.apply, Op.engages, Optional.reset]
    | emplace_op v =>
        cases e <;> simp [Op.apply, Op.engages, Optional.emplace, Optional.reset]
    | swap_with other =>
        cases other with
        | mk q d =>
            cases e <;> cases d <;> simp [Op.apply, Op.engages, Optional.swap]

theorem inv_run_ops (s : Optional α) (ops : List (Op α))
    (hs : Optional.inv s = true) (h : ∀ op ∈ ops, Op.src_inv op = true) :
    Optional.inv (run_ops s ops) = true := by
  induction ops generalizing s with
  | nil => exact hs
  | cons op rest ih =>
      exact ih (Op.apply s op) (inv_apply s op hs (h op (by simp)))
        (fun o ho => h o (by simp [ho]))

theorem engaged_run_ops (s : Optional α) (ops : List (Op α)) :
    (run_ops s ops).m_engaged = trace_engaged s.m_engaged ops := by
  induction ops generalizing s with
  | nil => rfl
  | cons op rest ih =>
      show (run_ops (Op.apply s op) rest).m_engaged =
        trace_engaged (Op.engages op) rest
      rw [ih (Op.apply s op), engaged_apply]

/-- C1: after any public construction of an `Optional<T>` and any sequence of
state-changing public operations (assignments, reset, emplace, swap, with
copy/move/swap sources themselves satisfying the invariant), the storage slot
holds a live `T` instance iff the engaged flag is true; moreover the optional
is engaged exactly when the last operation engages (construct-with-value /
copy-from-engaged / move-from-engaged / emplace / value-proxy assignment), the
initial construction deciding when no operation intervened. -/
theorem C1_engagement_invariant (c : Ctor α) (ops : List (Op α))
    (hc : Ctor.src_inv c = true) (hops : ∀ op ∈ ops, Op.src_inv op = true) :
    Optional.inv (run_ops (Ctor.init c) ops) = true ∧
    (run_ops (Ctor.init c) ops).m_engaged =
      trace_engaged (Ctor.init c).m_engaged ops :=
  ⟨inv_run_ops (Ctor.init c) ops (inv_init c hc) hops,
   engaged_run_ops (Ctor.init c) ops⟩

/-- C1 witness: a concrete trace (in-place construct 5, reset, emplace 7,
copy-assign from a disengaged source) keeps the invariant and ends
disengaged. -/
theorem C1_engagement_invariant_witness :
    Optional.inv (run_ops (Ctor.init (Ctor.in_place (5 : Nat)))
      [Op.reset_op, Op.emplace_op 7,
       Op.copy_assign_from Optional.default_construct]) = true ∧
    (run_ops (Ctor.init (Ctor.in_place (5 : Nat)))
      [Op.reset_op, Op.emplace_op 7,
       Op.copy_assign_from Optional.default_construct]).m_engaged =
      trace_engaged (Ctor.init (Ctor.in_place (5 : Nat))).m_engaged
        [Op.reset_op, Op.emplace_op 7,
         Op.copy_assign_from Optional.default_construct] :=
  C1_engagement_invariant (Ctor.in_place (5 : Nat))
    [Op.reset_op, Op.emplace_op 7,
     Op.copy_assign_from Optional.default_construct]
    (by decide) (by decide)

/-- C2: copy and move assignment are a four-way case split on the engagement
of target `a` and source `b`: both engaged assigns the payload in place (one
`PEvent.assign`, no destroy/reconstruct, flag stays true); `a` engaged and `b`
not destroys the payload and disengages `a`; `a` disengaged and `b` engaged
constructs the payload from `b` and engages `a`; neither engaged is a no-op
leaving `a` unchanged. -/
theorem C2_assignment_case_split (a b : Optional α) :
    (a.m_engaged = true → b.m_engaged = true →
      Optional.copy_assign a b =
        ({ a with m_payload := b.m_payload }, [PEvent.assign]) ∧
      Optional.move_assign a b =
        ({ a with m_payload := b.m_payload }, [PEvent.assign])) ∧
    (a.m_engaged = true → b.m_engaged = false →
      Optional.copy_assign a b =
        ({ m_payload := none, m_engaged := false }, [PEvent.destroy]) ∧
      Optional.move_assign a b =
        ({ m_payload := none, m_engaged := false }, [PEvent.destroy])) ∧
    (a.m_engaged = false → b.m_engaged = true →
      Optional.copy_assign a b =
        ({ m_payload := b.m_payload, m_engaged := true }, [PEvent.construct]) ∧
      Optional.move_assign a b =
        ({ m_payload := b.m_payload, m_engaged := true }, [PEvent.construct])) ∧
    (a.m_engaged = false → b.m_engaged = false →
      Optional.copy_assign a b = (a, []) ∧
      Optional.move_assign a b = (a, [])) := by
  cases a with
  | mk p e =>
    cases b with
    | mk q d =>
        cases e <;> cases d <;>
          simp [Optional.copy_assign, Optional.move_assign]

/-- C2 witness: assigning an engaged `Some 2` into an engaged `Some 1` assigns
in place with a single payload assignment event. -/
theorem C2_assignment_case_split_witness :
    Optional.copy_assign (Optional.mk (some 1) true) (Optional.mk (some 2) true) =
      (Optional.mk (some 2) true, [PEvent.assign]) ∧
    Optional.move_assign (Optional.mk (some 1) true) (Optional.mk (some 2) true) =
      (Optional.mk (some 2) true, [PEvent.assign]) :=
  (C2_assignment_case_split (Optional.mk (some (1 : Nat)) true)
    (Optional.mk (some 2) true)).1 rfl rfl

/-- C3: two Optionals compare equal iff both disengaged or both engaged with
equal payloads; a disengaged optional orders below an engaged one, two
disengaged optionals are equivalent, and when both are engaged the three-way
result is the payloads' own comparison. -/
theorem C3_optional_vs_optional_comparison (eq : α → β → Bool)
    (cmp : α → β → Ordering) (a : Optional α) (b : Optional β)
    (ha : Optional.inv a = true) (hb : Optional.inv b = true) :
    (opt_eq_opt eq a b = true ↔
      (a.m_engaged = false ∧ b.m_engaged = false) ∨
      (∃ x y, a.m_payload = some x ∧ b.m_payload = some y ∧ eq x y = true)) ∧
    (a.m_engaged = false → b.m_engaged = true →
      opt_cmp_opt cmp a b = Ordering.lt) ∧
    (a.m_engaged = true → b.m_engaged = false →
      opt_cmp_opt cmp a b = Ordering.gt) ∧
    (a.m_engaged = false → b.m_engaged = false →
      opt_cmp_opt cmp a b = Ordering.eq) ∧
    (a.m_engaged = true → b.m_engaged = true →
      ∃ x y, a.m_payload = some x ∧ b.m_payload = some y ∧
        opt_cmp_opt cmp a b = cmp x y) := by
  cases a with
  | mk p e =>
    cases b with
    | mk q d =>
        cases e <;> cases d <;>
          simp_all [Optional.inv, opt_eq_opt, opt_cmp_opt] <;>
          (try (cases p <;> cases q <;> simp_all))

/-- C3 witness: `Some 3 == Some 3` over Nat payloads. -/
theorem C3_optional_vs_optional_comparison_witness :
    opt_eq_opt (fun x y : Nat => x == y)
      (Optional.mk (some 3) true) (Optional.mk (some 3) true) = true := by
  have h := (C3_optional_vs_optional_comparison (fun x y : Nat => x == y)
    (fun x y : Nat => compare x y)
    (Optional.mk (some 3) true) (Optional.mk (some 3) true) rfl rfl).1
  exact h.mpr (Or.inr ⟨3, 3, rfl, rfl, by decide⟩)

/-- C4: an Optional equals None iff disengaged; against None it is equivalent
when disengaged and greater when engaged; against a bare value it is equal iff
engaged with payload equal to the value, and a disengaged optional is always
less than any bare value. -/
theorem C4_none_and_bare_value_comparison (a : Optional α) (eq : α → β → Bool)
    (cmp : α → β → Ordering) (b : β) (ha : Optional.inv a = true) :
    (opt_eq_none a = true ↔ a.m_engaged = false) ∧
    (a.m_engaged = false → opt_cmp_none a = Ordering.eq) ∧
    (a.m_engaged = true → opt_cmp_none a = Ordering.gt) ∧
    (opt_eq_val eq a b = true ↔
      a.m_engaged = true ∧ ∃ x, a.m_payload = some x ∧ eq x b = true) ∧
    (a.m_engaged = false → opt_cmp_val cmp a b = Ordering.lt) := by
  cases a with
  | mk p e =>
      cases e <;>
        simp_all [Optional.inv, opt_eq_none, opt_cmp_none, opt_eq_val,
          opt_cmp_val] <;>
        (try (cases p <;> simp_all))

/-- C4 witness: a disengaged `Optional Nat` equals None and orders below the
bare value 7. -/
theorem C4_none_and_bare_value_comparison_witness :
    opt_eq_none (Optional.mk (none : Option Nat) false) = true ∧
    opt_cmp_val (fun x y : Nat => compare x y)
      (Optional.mk (none : Option Nat) false) 7 = Ordering.lt := by
  have h := C4_none_and_bare_value_comparison
    (Optional.mk (none : Option Nat) false) (fun x y : Nat => x == y)
    (fun x y : Nat => compare x y) 7 rfl
  exact ⟨h.1.mpr rfl, h.2.2.2.2 rfl⟩

/-- C5: `and_then(f)` invokes `f` on the payload only when engaged and returns
f's result; on a disengaged optional `f` is never invoked (the result does not
depend on `f`) and the result is the default-constructed, disengaged instance
of f's declared optional return type. -/
theorem C5_and_then_invocation (s : Optional α) (f : α → Optional β)
    (hs : Optional.inv s = true) :
    (s.m_engaged = false →
      Optional.and_then s f = Optional.default_construct ∧
      (Optional.and_then s f).m_engaged = false ∧
      ∀ g : α → Optional β, Optional.and_then s g = Optional.and_then s f) ∧
    (s.m_engaged = true →
      ∃ v, s.m_payload = some v ∧ Optional.and_then s f = f v) := by
  cases s with
  | mk p e =>
      cases e <;>
        simp_all [Optional.inv, Optional.and_then, maybe_invoke,
          Optional.default_construct] <;>
        (try (cases p <;> simp_all [Optional.and_then, maybe_invoke]))

/-- C5 witness: doubling through and_then on an engaged `Some 10` yields
`Some 20`, and on a disengaged optional the callback result is disengaged. -/
theorem C5_and_then_invocation_witness :
    Optional.and_then (Optional.mk (some 10) true)
      (fun x : Nat => Optional.some_construct (x * 2)) =
      Optional.some_construct 20 ∧
    Optional.and_then (Optional.mk (none : Option Nat) false)
      (fun x : Nat => Optional.some_construct (x * 2)) =
      Optional.default_construct := by
  have h1 := (C5_and_then_invocation (Optional.mk (some (10 : Nat)) true)
    (fun x : Nat => Optional.some_construct (x * 2)) rfl).2 rfl
  have h2 := (C5_and_then_invocation (Optional.mk (none : Option Nat) false)
    (fun x : Nat => Optional.some_construct (x * 2)) rfl).1 rfl
  refine ⟨?_, h2.1⟩
  obtain ⟨v, hv, hres⟩ := h1
  cases hv
  exact hres

/-- C6: `value()` on a disengaged optional fails the always-active `REQUIRE`
check and the process aborts through the failure collaborator (never an
exception or an error value); on an engaged optional it returns the payload. -/
theorem C6_value_checked_access (s : Optional α) (hs : Optional.inv s = true) :
    (s.m_engaged = false → Optional.value s = AccessResult.aborted) ∧
    (s.m_engaged = true →
      ∃ v, s.m_payload = some v ∧ Optional.value s = AccessResult.ok v) ∧
    Optional.value s ≠ AccessResult.undef := by
  cases s with
  | mk p e =>
      cases e <;>
        simp_all [Optional.inv, Optional.value, REQUIRE] <;>
        (try (cases p <;> simp_all [Optional.value, REQUIRE]))

/-- C6 witness: `value()` aborts on a disengaged optional and returns 4 on an
engaged `Some 4`. -/
theorem C6_value_checked_access_witness :
    Optional.value (Optional.mk (none : Option Nat) false) =
      AccessResult.aborted ∧
    Optional.value (Optional.mk (some 4) true) = AccessResult.ok 4 := by
  have h1 := (C6_value_checked_access
    (Optional.mk (none : Option Nat) false) rfl).1 rfl
  have h2 := (C6_value_checked_access (Optional.mk (some (4 : Nat)) true)
    rfl).2.1 rfl
  refine ⟨h1, ?_⟩
  obtain ⟨v, hv, hres⟩ := h2
  cases hv
  exact hres

/-- C7: swap with exactly one side engaged move-constructs the payload into
the disengaged side and then destroys the source payload — one construction
and one destruction, the former source disengaged, the former target engaged
with the source's old payload; both engaged swaps payloads via T's swap;
neither engaged is a no-op. -/
theorem C7_swap_case_split (a b : Optional α) :
    (a.m_engaged = true → b.m_engaged = false →
      Optional.swap a b =
        ((Optional.mk none false, Optional.mk a.m_payload true),
         [PEvent.construct, PEvent.destroy])) ∧
    (a.m_engaged = false → b.m_engaged = true →
      Optional.swap a b =
        ((Optional.mk b.m_payload true, Optional.mk none false),
         [PEvent.construct, PEvent.destroy])) ∧
    (a.m_engaged = true → b.m_engaged = true →
      Optional.swap a b =
        (({ a with m_payload := b.m_payload },
          { b with m_payload := a.m_payload }), [PEvent.swapT])) ∧
    (a.m_engaged = false → b.m_engaged = false →
      Optional.swap a b = ((a, b), [])) := by
  cases a with
  | mk p e =>
    cases b with
    | mk q d =>
        cases e <;> cases d <;> simp [Optional.swap]

/-- C7 witness: swapping engaged `Some 9` with a disengaged optional relocates
the payload with one construct and one destroy. -/
theorem C7_swap_case_split_witness :
    Optional.swap (Optional.mk (some 9) true)
      (Optional.mk (none : Option Nat) false) =
      ((Optional.mk none false, Optional.mk (some 9) true),
       [PEvent.construct, PEvent.destroy]) :=
  (C7_swap_case_split (Optional.mk (some (9 : Nat)) true)
    (Optional.mk none false)).1 rfl rfl

/-- C8: assigning a new reference proxy to an `Optional<T&>` rebinds the
stored address to the new object and leaves the whole referent heap — in
particular the previously referenced object — unchanged; the referent is
mutated exactly at its own address only by an explicit store through the
dereference. -/
theorem C8_reference_rebind (r : OptionalRef) (h : Heap α) (a addr2 : Nat)
    (v : α) (hr : r.m_ptr = some a) :
    (OptionalRef.assign_ref (r, h) addr2).1.m_ptr = some addr2 ∧
    (OptionalRef.assign_ref (r, h) addr2).2 = h ∧
    (OptionalRef.assign_ref (r, h) addr2).2 a = h a ∧
    (OptionalRef.store_through (r, h) v).2 a = v ∧
    ∀ i, i ≠ a → (OptionalRef.store_through (r, h) v).2 i = h i := by
  refine ⟨rfl, rfl, rfl, ?_, ?_⟩
  · simp [OptionalRef.store_through, hr]
  · intro i hi
    simp [OptionalRef.store_through, hr, hi]

/-- C8 witness: the spec scenario — x at address 0 holds 5, r bound to it,
store 9 through r, then rebind r to address 1: r points at 1 and x still
holds 9. -/
theorem C8_reference_rebind_witness :
    (OptionalRef.assign_ref
      (OptionalRef.store_through
        (OptionalRef.mk (some 0), fun i : Nat => if i = 0 then (5 : Nat) else 1)
        9) 1).1.m_ptr = some 1 ∧
    (OptionalRef.assign_ref
      (OptionalRef.store_through
        (OptionalRef.mk (some 0), fun i : Nat => if i = 0 then (5 : Nat) else 1)
        9) 1).2 0 = 9 := by
  have hst := C8_reference_rebind (OptionalRef.mk (some 0))
    (fun i : Nat => if i = 0 then (5 : Nat) else 1) 0 1 9 rfl
  have hrb := C8_reference_rebind
    (OptionalRef.store_through
      (OptionalRef.mk (some 0), fun i : Nat => if i = 0 then (5 : Nat) else 1)
      9).1
    (OptionalRef.store_through
      (OptionalRef.mk (some 0), fun i : Nat => if i = 0 then (5 : Nat) else 1)
      9).2 0 1 9 rfl
  exact ⟨hrb.1, hst.2.2.2.1⟩

/-- C9: assignment from the empty marker disengages (destroying the payload
when engaged, with exactly one destroy event) and is idempotent — a second
empty-assignment changes nothing and performs no payload event; `reset()`
twice equals `reset()` once, and `reset()` on a disengaged optional is a
no-op. -/
theorem C9_empty_assignment_idempotent (s : Optional α) :
    (Optional.assign_none s).1.m_engaged = false ∧
    (s.m_engaged = true → (Optional.assign_none s).1.m_payload = none ∧
      (Optional.assign_none s).2 = [PEvent.destroy]) ∧
    Optional.assign_none (Optional.assign_none s).1 =
      ((Optional.assign_none s).1, []) ∧
    Optional.reset (Optional.reset s).1 = ((Optional.reset s).1, []) ∧
    (s.m_engaged = false → Optional.reset s = (s, [])) := by
  cases s with
  | mk p e =>
      cases e <;> simp [Optional.assign_none, Optional.reset]

/-- C9 witness: empty-assigning an engaged `Some 6` destroys and disengages,
and doing it again is a no-op. -/
theorem C9_empty_assignment_idempotent_witness :
    (Optional.assign_none (Optional.mk (some 6) true)).1.m_payload =
      (none : Option Nat) ∧
    Optional.assign_none
      (Optional.assign_none (Optional.mk (some (6 : Nat)) true)).1 =
      ((Optional.assign_none (Optional.mk (some 6) true)).1, []) := by
  have h := C9_empty_assignment_idempotent (Optional.mk (some (6 : Nat)) true)
  exact ⟨(h.2.1 rfl).1, h.2.2.1⟩

/-- C10: the comparison operators never invoke the payload comparison of a
disengaged operand: whenever an operand of optional-vs-optional comparison is
disengaged, the result does not depend on the payload equality or three-way
comparison at all, and likewise for optional-vs-bare-value comparison when the
optional is disengaged. -/
theorem C10_no_disengaged_payload_access (a : Optional α) (b : Optional β)
    (c : β) (eq eq2 : α → β → Bool) (cmp cmp2 : α → β → Ordering) :
    ((a.m_engaged && b.m_engaged) = false →
      opt_eq_opt eq a b = opt_eq_opt eq2 a b ∧
      opt_cmp_opt cmp a b = opt_cmp_opt cmp2 a b) ∧
    (a.m_engaged = false →
      opt_eq_val eq a c = opt_eq_val eq2 a c ∧
      opt_cmp_val cmp a c = opt_cmp_val cmp2 a c) := by
  cases a with
  | mk p e =>
    cases b with
    | mk q d =>
        cases e <;> cases d <;>
          simp [opt_eq_opt, opt_cmp_opt, opt_eq_val, opt_cmp_val]

/-- C10 witness: with one operand disengaged, swapping the payload comparator
for its negation does not change the comparison results. -/
theorem C10_no_disengaged_payload_access_witness :
    opt_eq_opt (fun x y : Nat => x == y) (Optional.mk (some 1) true)
      (Optional.mk none false) =
    opt_eq_opt (fun x y : Nat => !(x == y)) (Optional.mk (some 1) true)
      (Optional.mk none false) ∧
    opt_cmp_opt (fun x y : Nat => compare x y) (Optional.mk (some 1) true)
      (Optional.mk none false) =
    opt_cmp_opt (fun x y : Nat => compare y x) (Optional.mk (some 1) true)
      (Optional.mk none false) :=
  (C10_no_disengaged_payload_access (Optional.mk (some (1 : Nat)) true)
    (Optional.mk (none : Option Nat) false) 0 (fun x y => x == y)
    (fun x y => !(x == y)) (fun x y => compare x y)
    (fun x y => compare y x)).1 rfl

end Slm
